import Mathlib

/-!
Shallow embedding of the particle-animation core of the portfolio script
(src/script.js) and verification of the specification claims about it.

Modelling conventions:
- JavaScript floating-point coordinates, velocities and configuration values
  are modelled as rationals; the code performs only field arithmetic on them.
- Wherever the source computes a Euclidean distance with Math.sqrt, the
  embedding receives the distance value as an explicit argument, and theorems
  constrain it with 0 <= dist and dist * dist = dx * dx + dy * dy, which is
  exactly the defining property of the square root.  Comparisons of the form
  Math.sqrt s < m that feed a branch are encoded as s < m * m, which is
  equivalent for the nonnegative thresholds used by the code.
- Math.random samples are modelled as an explicit stream of rationals
  (a function from sample index to value); a faithful run supplies values in
  the interval [0, 1).
- The NaN behaviour of IEEE division needed by claim C9 is modelled by a
  dedicated JSNum type with the IEEE special values (the source has no
  negative zero paths relevant to the claims, so a single zero is used).
-/

/-- Particle record created by NeuralCanvas.createParticles (script.js
lines 1444-1453).  The color field is a fixed constant in the source and is
omitted because no behaviour depends on it. -/
structure Particle where
  x : ℚ
  y : ℚ
  vx : ℚ
  vy : ℚ
  size : ℚ
deriving DecidableEq, Repr, Inhabited

namespace NeuralCanvas

/-- Particle built by one iteration of the creation loop in
NeuralCanvas.createParticles (script.js lines 1445-1452) from five
consecutive Math.random samples r1 .. r5:
x = random * width, y = random * height, vx and vy = (random - 0.5) * 1.5,
size = random * 2 + 1. -/
def mkParticle (w h r1 r2 r3 r4 r5 : ℚ) : Particle :=
  { x := r1 * w
    y := r2 * h
    vx := (r3 - 1 / 2) * (3 / 2)
    vy := (r4 - 1 / 2) * (3 / 2)
    size := r5 * 2 + 1 }

/-- NeuralCanvas.createParticles (script.js lines 1440-1454): the particles
array is reassigned to a fresh batch of count particles, each built from the
next five samples of the random stream rnd. -/
def createParticles (w h : ℚ) (count : ℕ) (rnd : ℕ → ℚ) : List Particle :=
  (List.range count).map fun i =>
    mkParticle w h (rnd (5 * i)) (rnd (5 * i + 1)) (rnd (5 * i + 2))
      (rnd (5 * i + 3)) (rnd (5 * i + 4))

/-- Movement and boundary bounce for one particle, script.js lines 1464-1470
inside NeuralCanvas.draw: the position is advanced by the velocity, then the
velocity component sign is flipped whenever the new coordinate lies outside
[0, width] (respectively [0, height]).  The position itself is not clamped. -/
def moveStep (w h : ℚ) (p : Particle) : Particle :=
  let x := p.x + p.vx
  let y := p.y + p.vy
  let vx := if x < 0 ∨ x > w then -p.vx else p.vx
  let vy := if y < 0 ∨ y > h then -p.vy else p.vy
  { p with x := x, y := y, vx := vx, vy := vy }

/-- Mouse interaction for one particle, script.js lines 1472-1486 inside
NeuralCanvas.draw.  The source computes
distance = Math.sqrt(dx*dx + dy*dy); the embedding receives that value as
the argument dist (see the module comment).  The mouse radius is the
constant 150 set in the constructor (line 1407), and the repel strength
factor is 2 (lines 1481-1482). -/
def mouseStep (mx my dist : ℚ) (p : Particle) : Particle :=
  let dx := mx - p.x
  let dy := my - p.y
  if dist < 150 then
    let forceDirectionX := dx / dist
    let forceDirectionY := dy / dist
    let force := (150 - dist) / 150
    let directionX := forceDirectionX * force * 2
    let directionY := forceDirectionY * force * 2
    { p with x := p.x - directionX, y := p.y - directionY }
  else
    p

/-- One frame of NeuralCanvas.draw for a single particle (lines 1461-1493):
movement with boundary bounce, then the mouse interaction.  The dist
argument is the distance from the mouse to the moved position. -/
def drawStep (w h mx my dist : ℚ) (p : Particle) : Particle :=
  mouseStep mx my dist (moveStep w h p)

/-- Squared distance between two particles, as computed by
dx * dx + dy * dy at script.js lines 1504-1506. -/
def pairDist2 (p q : Particle) : ℚ :=
  (p.x - q.x) * (p.x - q.x) + (p.y - q.y) * (p.y - q.y)

/-- Index pairs for which NeuralCanvas.connectParticles (script.js lines
1499-1519) draws a line.  The outer loop runs a over all indices and the
inner loop starts at b = a (not a + 1), so the pair with b = a is also
examined.  The source condition Math.sqrt(dx*dx + dy*dy) < 150 is encoded
as the equivalent dx*dx + dy*dy < 150 * 150 (the threshold is the constant
SYSTEM_CONFIG.animation.connectionRadius = 150). -/
def connectParticles (ps : List Particle) : List (ℕ × ℕ) :=
  (List.range ps.length).flatMap fun a =>
    ((List.range ps.length).filter fun b => decide (a ≤ b)).filterMap fun b =>
      if pairDist2 (ps.getD a default) (ps.getD b default) < 150 * 150 then
        some (a, b)
      else
        none

/-- Opacity value computed at script.js line 1509 for a pair at distance
dist: opacity = 1 - dist / maxDist with maxDist = 150. -/
def connectionOpacity (dist : ℚ) : ℚ :=
  1 - dist / 150

/-- Alpha component written into the stroke color at script.js line 1510:
the rgba alpha is opacity * 0.2. -/
def connectionAlpha (dist : ℚ) : ℚ :=
  connectionOpacity dist * (2 / 10)

/-- Canvas state relevant to NeuralCanvas.resize: dimensions, the recomputed
particle count and the particle array. -/
structure NCState where
  width : ℚ
  height : ℚ
  particleCount : ℕ
  particles : List Particle

/-- NeuralCanvas.resize (script.js lines 1424-1433): the dimensions are
refreshed, the particle count is recomputed from the width tier
(width > 1000 gives 120 particles, otherwise 60, line 1431) and
createParticles is called, which discards the previous array wholesale.
The previous state argument is ignored by the source apart from being
overwritten, which the embedding makes explicit. -/
def resize (newW newH : ℚ) (rnd : ℕ → ℚ) (_old : NCState) : NCState :=
  let count : ℕ := if 1000 < newW then 120 else 60
  { width := newW
    height := newH
    particleCount := count
    particles := createParticles newW newH count rnd }

end NeuralCanvas

/-- Background particle (script.js lines 757-790): the constructor stores
the canvas dimensions w and h and calls reset, which randomizes every other
field. -/
structure BGParticle where
  w : ℚ
  h : ℚ
  x : ℚ
  y : ℚ
  vx : ℚ
  vy : ℚ
  size : ℚ
  life : ℚ
deriving DecidableEq, Repr, Inhabited

namespace BGParticle

/-- BackgroundParticle.reset (script.js lines 764-771), from six consecutive
Math.random samples: x = random * w, y = random * h,
vx and vy = (random - 0.5) * baseSpeed with CONFIG.bg.baseSpeed = 0.3
(line 152), size = random * 2, life = random * 100. -/
def reset (w h r1 r2 r3 r4 r5 r6 : ℚ) : BGParticle :=
  { w := w
    h := h
    x := r1 * w
    y := r2 * h
    vx := (r3 - 1 / 2) * (3 / 10)
    vy := (r4 - 1 / 2) * (3 / 10)
    size := r5 * 2
    life := r6 * 100 }

/-- BackgroundParticle.update (script.js lines 773-781): the position is
advanced by the velocity and life is incremented; if the new position left
[0, w] x [0, h] the particle is wholly re-randomized by reset.  The six
random samples that reset would consume are passed explicitly. -/
def update (r1 r2 r3 r4 r5 r6 : ℚ) (p : BGParticle) : BGParticle :=
  let x := p.x + p.vx
  let y := p.y + p.vy
  let life := p.life + 1
  if x < 0 ∨ x > p.w ∨ y < 0 ∨ y > p.h then
    reset p.w p.h r1 r2 r3 r4 r5 r6
  else
    { p with x := x, y := y, life := life }

/-- Squared distance between two background particles, as computed by
dx*dx + dy*dy at script.js lines 838-840. -/
def pairDist2 (p q : BGParticle) : ℚ :=
  (p.x - q.x) * (p.x - q.x) + (p.y - q.y) * (p.y - q.y)

end BGParticle

namespace BackgroundSystem

/-- Index pairs for which the connection pass of BackgroundSystem.draw
(script.js lines 832-852) draws a line: the outer loop runs i over all
indices and the inner loop starts at j = i + 1, so only strictly ordered
pairs are examined.  The source condition
Math.sqrt(dx*dx + dy*dy) < maxDist with
maxDist = CONFIG.bg.connectionDistance = 140 (line 151) is encoded as the
equivalent dx*dx + dy*dy < 140 * 140. -/
def drawPairs (ps : List BGParticle) : List (ℕ × ℕ) :=
  (List.range ps.length).flatMap fun i =>
    ((List.range ps.length).filter fun j => decide (i < j)).filterMap fun j =>
      if BGParticle.pairDist2 (ps.getD i default) (ps.getD j default) < 140 * 140 then
        some (i, j)
      else
        none

/-- Global alpha set at script.js line 846 for a background connection line
at distance dist: 0.15 * (1 - dist / maxDist) with maxDist = 140. -/
def drawAlpha (dist : ℚ) : ℚ :=
  15 / 100 * (1 - dist / 140)

end BackgroundSystem

/-- Error raised by JavaScript when a property of a null object is accessed;
the startup guards of the components exist to avoid it. -/
inductive JsError where
  | nullAccess : JsError
deriving DecidableEq, Repr

/-- State of a CanvasController (script.js lines 406-443).  The isValid and
hasCtx flags record whether the canvas element was found and whether a
drawing context was obtained (the source sets ctx to null when the canvas is
missing, lines 409-410).  The ops list records the canvas drawing calls
performed, so that silent no-op behaviour is observable. -/
structure CanvasController where
  isValid : Bool
  hasCtx : Bool
  width : ℚ
  height : ℚ
  ops : List String
deriving DecidableEq, Repr

namespace CanvasController

/-- CanvasController.resize (script.js lines 421-437): guarded by isValid;
on the valid path it stores the parent dimensions and calls ctx.scale, which
requires the context.  Returns an error exactly when a null context would be
accessed. -/
def resizeM (c : CanvasController) (pw ph : ℚ) : Except JsError CanvasController :=
  if c.isValid = false then
    Except.ok c
  else if c.hasCtx then
    Except.ok { c with width := pw, height := ph, ops := c.ops ++ ["scale"] }
  else
    Except.error JsError.nullAccess

/-- CanvasController.clear (script.js lines 439-442): guarded by isValid;
on the valid path it calls ctx.clearRect. -/
def clear (c : CanvasController) : Except JsError CanvasController :=
  if c.isValid = false then
    Except.ok c
  else if c.hasCtx then
    Except.ok { c with ops := c.ops ++ ["clearRect"] }
  else
    Except.error JsError.nullAccess

/-- CanvasController constructor (script.js lines 406-419): ctx is obtained
only when the canvas exists, isValid mirrors the canvas lookup, and resize
runs only on the valid path. -/
def make (canvasFound : Bool) (pw ph : ℚ) : Except JsError CanvasController :=
  let c : CanvasController :=
    { isValid := canvasFound, hasCtx := canvasFound, width := 0, height := 0, ops := [] }
  if canvasFound then c.resizeM pw ph else Except.ok c

end CanvasController

/-- Observable state of a NeuralCanvas component (script.js lines
1395-1410): whether the canvas element was found, whether init ran (resize,
particle creation, animation start and listener registration, lines
1412-1422), and the particle array. -/
structure NeuralCanvasObj where
  hasCanvas : Bool
  initialized : Bool
  particles : List Particle
  width : ℚ
  height : ℚ
deriving DecidableEq, Repr

namespace NeuralCanvas

/-- NeuralCanvas constructor (script.js lines 1396-1410): when the canvas
element is missing the constructor returns before touching the context or
calling init, so the component ends in an inert state and no exception is
raised.  When the canvas exists, init resizes and creates the particles. -/
def make (canvasFound : Bool) (w h : ℚ) (rnd : ℕ → ℚ) : Except JsError NeuralCanvasObj :=
  if canvasFound = false then
    Except.ok { hasCanvas := false, initialized := false, particles := [], width := 0, height := 0 }
  else
    Except.ok
      { hasCanvas := true
        initialized := true
        particles := createParticles w h (if 1000 < w then 120 else 60) rnd
        width := w
        height := h }

end NeuralCanvas

/-- IEEE double value as far as the mouse-interaction arithmetic observes it:
a finite number (modelled exactly as a rational), NaN, or a signed infinity.
JavaScript negative zero is not distinguished; no path relevant to the
claims produces it. -/
inductive JSNum where
  | num : ℚ → JSNum
  | nan : JSNum
  | posInf : JSNum
  | negInf : JSNum
deriving DecidableEq, Repr

namespace JSNum

/-- JavaScript subtraction with NaN and infinity propagation. -/
def sub : JSNum → JSNum → JSNum
  | nan, _ => nan
  | _, nan => nan
  | num a, num b => num (a - b)
  | posInf, num _ => posInf
  | negInf, num _ => negInf
  | num _, posInf => negInf
  | num _, negInf => posInf
  | posInf, posInf => nan
  | posInf, negInf => posInf
  | negInf, posInf => negInf
  | negInf, negInf => nan

/-- JavaScript multiplication with NaN and infinity propagation;
infinity times zero is NaN. -/
def mul : JSNum → JSNum → JSNum
  | nan, _ => nan
  | _, nan => nan
  | num a, num b => num (a * b)
  | posInf, num b => if 0 < b then posInf else if b < 0 then negInf else nan
  | num a, posInf => if 0 < a then posInf else if a < 0 then negInf else nan
  | negInf, num b => if 0 < b then negInf else if b < 0 then posInf else nan
  | num a, negInf => if 0 < a then negInf else if a < 0 then posInf else nan
  | posInf, posInf => posInf
  | posInf, negInf => negInf
  | negInf, posInf => negInf
  | negInf, negInf => posInf

/-- JavaScript division: zero divided by zero is NaN, a nonzero finite
number divided by zero is a signed infinity, and infinities divided by each
other are NaN. -/
def div : JSNum → JSNum → JSNum
  | nan, _ => nan
  | _, nan => nan
  | num a, num b =>
      if b = 0 then
        if a = 0 then nan else if 0 < a then posInf else negInf
      else
        num (a / b)
  | num _, posInf => num 0
  | num _, negInf => num 0
  | posInf, num b => if 0 ≤ b then posInf else negInf
  | negInf, num b => if 0 ≤ b then negInf else posInf
  | posInf, posInf => nan
  | posInf, negInf => nan
  | negInf, posInf => nan
  | negInf, negInf => nan

/-- JavaScript strict less-than: every comparison with NaN is false. -/
def lt : JSNum → JSNum → Bool
  | nan, _ => false
  | _, nan => false
  | num a, num b => decide (a < b)
  | num _, posInf => true
  | negInf, num _ => true
  | negInf, posInf => true
  | _, _ => false

end JSNum

namespace NeuralCanvas

/-- Mouse interaction of NeuralCanvas.draw (script.js lines 1473-1486) over
IEEE-style values, for the NaN analysis of claim C9.  The dist argument
stands for Math.sqrt(dx*dx + dy*dy); when the pointer coincides with the
particle both deltas are zero and the square root is exactly zero. -/
def mouseStepJS (mx my dist px py : JSNum) : JSNum × JSNum :=
  let dx := JSNum.sub mx px
  let dy := JSNum.sub my py
  if JSNum.lt dist (JSNum.num 150) then
    let forceDirectionX := JSNum.div dx dist
    let forceDirectionY := JSNum.div dy dist
    let force := JSNum.div (JSNum.sub (JSNum.num 150) dist) (JSNum.num 150)
    let directionX := JSNum.mul (JSNum.mul forceDirectionX force) (JSNum.num 2)
    let directionY := JSNum.mul (JSNum.mul forceDirectionY force) (JSNum.num 2)
    (JSNum.sub px directionX, JSNum.sub py directionY)
  else
    (px, py)

end NeuralCanvas

namespace NeuralCanvas

/-- Single-axis state invariant of the bounce logic, for a coordinate x with
velocity v on the interval [0, w] and fixed speed magnitude c: the particle
is either inside the interval, or at most c beyond the far edge and already
turned back, or at most c beyond the near edge and already turned back. -/
abbrev axisInv (w c x v : ℚ) : Prop :=
  (v = c ∨ v = -c) ∧
    ((0 ≤ x ∧ x ≤ w) ∨ (w < x ∧ x ≤ w + c ∧ v = -c) ∨ (-c ≤ x ∧ x < 0 ∧ v = c))

lemma axisInv_step (w c x v : ℚ) (hc : 0 < c) (hcw : c ≤ w) (h : axisInv w c x v) :
    axisInv w c (x + v) (if x + v < 0 ∨ x + v > w then -v else v) := by
  obtain ⟨hv, hreg⟩ := h
  rcases hv with hv | hv <;> subst hv
  · rcases hreg with ⟨h0, h1⟩ | ⟨h0, h1, h2⟩ | ⟨h0, h1, h2⟩
    · split_ifs with hif
      · rcases hif with hif | hif
        · exact absurd hif (by linarith)
        · exact ⟨Or.inr rfl, Or.inr (Or.inl ⟨hif, by linarith, rfl⟩)⟩
      · push_neg at hif
        exact ⟨Or.inl rfl, Or.inl ⟨by linarith [hif.1], hif.2⟩⟩
    · exfalso; linarith
    · split_ifs with hif
      · rcases hif with hif | hif
        · exact absurd hif (by linarith)
        · exact absurd hif (by linarith)
      · exact ⟨Or.inl rfl, Or.inl ⟨by linarith, by linarith⟩⟩
  · rcases hreg with ⟨h0, h1⟩ | ⟨h0, h1, h2⟩ | ⟨h0, h1, h2⟩
    · split_ifs with hif
      · rcases hif with hif | hif
        · exact ⟨Or.inl (neg_neg c), Or.inr (Or.inr ⟨by linarith, hif, neg_neg c⟩)⟩
        · exact absurd hif (by linarith)
      · push_neg at hif
        exact ⟨Or.inr rfl, Or.inl ⟨by linarith [hif.1], by linarith⟩⟩
    · split_ifs with hif
      · rcases hif with hif | hif
        · exact absurd hif (by linarith)
        · exact absurd hif (by linarith)
      · exact ⟨Or.inr rfl, Or.inl ⟨by linarith, by linarith⟩⟩
    · exfalso; linarith

lemma axisInv_le (w c x v : ℚ) (hc : 0 < c) (hcw : c ≤ w) (h : axisInv w c x v) :
    -c ≤ x ∧ x ≤ w + c := by
  obtain ⟨-, hreg⟩ := h
  rcases hreg with ⟨h0, h1⟩ | ⟨h0, h1, -⟩ | ⟨h0, h1, -⟩ <;> exact ⟨by linarith, by linarith⟩

lemma moveStep_x (w h : ℚ) (p : Particle) : (moveStep w h p).x = p.x + p.vx := rfl

lemma moveStep_y (w h : ℚ) (p : Particle) : (moveStep w h p).y = p.y + p.vy := rfl

lemma moveStep_vx (w h : ℚ) (p : Particle) :
    (moveStep w h p).vx = if p.x + p.vx < 0 ∨ p.x + p.vx > w then -p.vx else p.vx := rfl

lemma moveStep_vy (w h : ℚ) (p : Particle) :
    (moveStep w h p).vy = if p.y + p.vy < 0 ∨ p.y + p.vy > h then -p.vy else p.vy := rfl

lemma mouseStep_far (mx my dist : ℚ) (p : Particle) (hd : ¬ dist < 150) :
    mouseStep mx my dist p = p := by
  simp only [mouseStep, if_neg hd]

end NeuralCanvas

open NeuralCanvas in
/-- C1 counterexample.  The claim states that after any number of
animation-frame update steps every particle position stays within
[0, width] x [0, height].  The state below is produced directly by the
particle creation code (first conjunct: mkParticle with admissible random
samples, each in [0, 1)), lies inside the 100 x 100 bounds, and a single
drawStep with the pointer 200 away from the moved position (second conjunct
checks that supplied distance against dx*dx + dy*dy) moves x to 100.2,
strictly beyond width = 100: the bounce flips the velocity but does not
clamp the position. -/
theorem C1_counterexample :
    mkParticle 100 100 (199 / 200) (1 / 2) (29 / 30) (1 / 2) (1 / 2) =
      ⟨199 / 2, 50, 7 / 10, 0, 2⟩ ∧
    (200 : ℚ) * 200 =
      (1501 / 5 - (moveStep 100 100 ⟨199 / 2, 50, 7 / 10, 0, 2⟩).x) *
        (1501 / 5 - (moveStep 100 100 ⟨199 / 2, 50, 7 / 10, 0, 2⟩).x) +
      (50 - (moveStep 100 100 ⟨199 / 2, 50, 7 / 10, 0, 2⟩).y) *
        (50 - (moveStep 100 100 ⟨199 / 2, 50, 7 / 10, 0, 2⟩).y) ∧
    (0 ≤ (199 : ℚ) / 2 ∧ (199 : ℚ) / 2 ≤ 100) ∧
    (drawStep 100 100 (1501 / 5) 50 200 ⟨199 / 2, 50, 7 / 10, 0, 2⟩).x > 100 := by
  refine ⟨?_, ?_, ⟨by norm_num, by norm_num⟩, ?_⟩ <;>
    norm_num [mkParticle, drawStep, moveStep, mouseStep, Particle.mk.injEq]

open NeuralCanvas in
/-- C1 amended.  For the NeuralCanvas particles the position is not confined
to [0, width] x [0, height]: the bounce flips the velocity without clamping,
so a particle may sit up to one velocity magnitude beyond an edge for a
frame.  The provable bound: with the pointer inactive or out of interaction
range (dist at least 150) and speed magnitudes cx, cy that are positive and
no larger than the bounds, the invariant axisInv is preserved by every frame
step and confines x to [-cx, w + cx] and y to [-cy, h + cy]. -/
theorem C1_amended_bounds (w h cx cy mx my dist : ℚ) (p : Particle)
    (hcx : 0 < cx) (hcxw : cx ≤ w) (hcy : 0 < cy) (hcyh : cy ≤ h)
    (hfar : 150 ≤ dist)
    (hx : axisInv w cx p.x p.vx) (hy : axisInv h cy p.y p.vy) :
    axisInv w cx (drawStep w h mx my dist p).x (drawStep w h mx my dist p).vx ∧
    axisInv h cy (drawStep w h mx my dist p).y (drawStep w h mx my dist p).vy ∧
    -cx ≤ (drawStep w h mx my dist p).x ∧ (drawStep w h mx my dist p).x ≤ w + cx ∧
    -cy ≤ (drawStep w h mx my dist p).y ∧ (drawStep w h mx my dist p).y ≤ h + cy := by
  have hm : drawStep w h mx my dist p = moveStep w h p := by
    unfold drawStep
    exact mouseStep_far _ _ _ _ (not_lt.mpr hfar)
  rw [hm]
  have hx2 : axisInv w cx (moveStep w h p).x (moveStep w h p).vx := by
    rw [moveStep_x, moveStep_vx]
    exact axisInv_step w cx p.x p.vx hcx hcxw hx
  have hy2 : axisInv h cy (moveStep w h p).y (moveStep w h p).vy := by
    rw [moveStep_y, moveStep_vy]
    exact axisInv_step h cy p.y p.vy hcy hcyh hy
  obtain ⟨bx1, bx2⟩ := axisInv_le _ _ _ _ hcx hcxw hx2
  obtain ⟨by1, by2⟩ := axisInv_le _ _ _ _ hcy hcyh hy2
  exact ⟨hx2, hy2, bx1, bx2, by1, by2⟩

open NeuralCanvas in
/-- Witness for C1 amended: a concrete in-bounds particle with unit speed on
a 100 x 100 canvas and the pointer far away. -/
theorem C1_amended_bounds_witness :
    axisInv 100 1 (drawStep 100 100 0 0 9999 ⟨50, 60, 1, 1, 2⟩).x
      (drawStep 100 100 0 0 9999 ⟨50, 60, 1, 1, 2⟩).vx ∧
    axisInv 100 1 (drawStep 100 100 0 0 9999 ⟨50, 60, 1, 1, 2⟩).y
      (drawStep 100 100 0 0 9999 ⟨50, 60, 1, 1, 2⟩).vy ∧
    -1 ≤ (drawStep 100 100 0 0 9999 ⟨50, 60, 1, 1, 2⟩).x ∧
    (drawStep 100 100 0 0 9999 ⟨50, 60, 1, 1, 2⟩).x ≤ 100 + 1 ∧
    -1 ≤ (drawStep 100 100 0 0 9999 ⟨50, 60, 1, 1, 2⟩).y ∧
    (drawStep 100 100 0 0 9999 ⟨50, 60, 1, 1, 2⟩).y ≤ 100 + 1 :=
  C1_amended_bounds 100 100 1 1 0 0 9999 ⟨50, 60, 1, 1, 2⟩ (by decide) (by decide)
    (by decide) (by decide) (by decide) (by decide) (by decide)

open NeuralCanvas in
/-- C2 counterexample.  The claim states that a line is drawn if and only if
the two particles are distinct and closer than the threshold.  With a single
particle the only index pair is (0, 0), which is not a pair of distinct
particles, yet connectParticles emits it: the inner loop of the source
starts at b = a, so every particle gets a degenerate line to itself. -/
theorem C2_counterexample :
    (0, 0) ∈ connectParticles [⟨5, 5, 0, 0, 1⟩] ∧ ¬ (0 ≠ 0) := by
  constructor
  · simp [connectParticles, pairDist2]
  · decide

open NeuralCanvas BackgroundSystem in
/-- C2 amended.  In NeuralCanvas.connectParticles a line is drawn for the
index pair (a, b) exactly when both indices are in range, a is at most b
(the degenerate pair a = b included), and the squared distance is strictly
below the squared threshold 150; a pair at distance exactly 150 gets no
line.  The strictly-distinct version of the claim holds for the other
connection pass in the file, BackgroundSystem.draw, whose inner loop starts
at j = i + 1 with threshold 140. -/
theorem C2_amended_pairs (ps : List Particle) (qs : List BGParticle) (a b i j : ℕ) :
    ((a, b) ∈ connectParticles ps ↔
      a < ps.length ∧ b < ps.length ∧ a ≤ b ∧
        pairDist2 (ps.getD a default) (ps.getD b default) < 150 * 150) ∧
    ((i, j) ∈ drawPairs qs ↔
      i < qs.length ∧ j < qs.length ∧ i < j ∧
        BGParticle.pairDist2 (qs.getD i default) (qs.getD j default) < 140 * 140) := by
  constructor
  · simp only [connectParticles, List.mem_flatMap, List.mem_filterMap, List.mem_filter,
      List.mem_range, decide_eq_true_eq]
    constructor
    · rintro ⟨a2, ha2, b2, ⟨⟨hb2, hle⟩, hif⟩⟩
      by_cases hlt : pairDist2 (ps.getD a2 default) (ps.getD b2 default) < 150 * 150
      · rw [if_pos hlt] at hif
        obtain ⟨rfl, rfl⟩ := Prod.mk.injEq .. ▸ Option.some.injEq .. ▸ hif
        exact ⟨ha2, hb2, hle, hlt⟩
      · rw [if_neg hlt] at hif
        exact absurd hif (Option.some_ne_none _).symm
    · rintro ⟨ha, hb, hle, hlt⟩
      exact ⟨a, ha, b, ⟨⟨hb, hle⟩, by rw [if_pos hlt]⟩⟩
  · simp only [drawPairs, List.mem_flatMap, List.mem_filterMap, List.mem_filter,
      List.mem_range, decide_eq_true_eq]
    constructor
    · rintro ⟨i2, hi2, j2, ⟨⟨hj2, hle⟩, hif⟩⟩
      by_cases hlt : BGParticle.pairDist2 (qs.getD i2 default) (qs.getD j2 default) < 140 * 140
      · rw [if_pos hlt] at hif
        obtain ⟨rfl, rfl⟩ := Prod.mk.injEq .. ▸ Option.some.injEq .. ▸ hif
        exact ⟨hi2, hj2, hle, hlt⟩
      · rw [if_neg hlt] at hif
        exact absurd hif (Option.some_ne_none _).symm
    · rintro ⟨hi, hj, hle, hlt⟩
      exact ⟨i, hi, j, ⟨⟨hj, hle⟩, by rw [if_pos hlt]⟩⟩

namespace NeuralCanvas

/-- Displacement vector applied to a particle by the mouse interaction
(script.js lines 1477-1485), as a function of the deltas dx, dy and the
distance value dist: inside the radius it is
(dx / dist * force * 2, dy / dist * force * 2) with
force = (150 - dist) / 150, outside it is zero. -/
def mouseDisplacement (dx dy dist : ℚ) : ℚ × ℚ :=
  if dist < 150 then
    (dx / dist * ((150 - dist) / 150) * 2, dy / dist * ((150 - dist) / 150) * 2)
  else
    (0, 0)

/-- The mouse step subtracts exactly the displacement vector of
mouseDisplacement from the particle position. -/
lemma mouseStep_displacement (mx my dist : ℚ) (p : Particle) :
    mouseStep mx my dist p =
      { p with
          x := p.x - (mouseDisplacement (mx - p.x) (my - p.y) dist).1
          y := p.y - (mouseDisplacement (mx - p.x) (my - p.y) dist).2 } := by
  unfold mouseStep mouseDisplacement
  split_ifs <;> simp

/-- Squared Euclidean magnitude of the mouse displacement. -/
def dispSq (dx dy dist : ℚ) : ℚ :=
  (mouseDisplacement dx dy dist).1 * (mouseDisplacement dx dy dist).1 +
    (mouseDisplacement dx dy dist).2 * (mouseDisplacement dx dy dist).2

/-- For a genuine distance value (positive, squaring to dx*dx + dy*dy)
inside the radius, the squared displacement magnitude collapses to
4 * force * force, independent of the direction. -/
lemma dispSq_eq (dx dy dist : ℚ) (hd : 0 < dist)
    (hv : dist * dist = dx * dx + dy * dy) (hlt : dist < 150) :
    dispSq dx dy dist = 4 * ((150 - dist) / 150) * ((150 - dist) / 150) := by
  have hne : dist ≠ 0 := ne_of_gt hd
  unfold dispSq mouseDisplacement
  rw [if_pos hlt]
  field_simp
  ring_nf
  nlinarith [hv]

end NeuralCanvas

open NeuralCanvas in
/-- C3.  The pointer-interaction displacement magnitude is zero whenever the
distance to the pointer is at least the interaction radius 150, and on
distances strictly between 0 and the radius the magnitude is a strictly
decreasing function of the distance (so it grows as the distance shrinks
toward 0, matching the closer-means-stronger-push contract).  Magnitudes are
compared through their squares, which is equivalent for nonnegative
magnitudes.  Each (dx, dy, dist) triple is constrained to be geometrically
consistent. -/
theorem C3_displacement_magnitude (dx1 dy1 d1 dx2 dy2 d2 dx3 dy3 d3 : ℚ)
    (hv1 : d1 * d1 = dx1 * dx1 + dy1 * dy1)
    (hv2 : d2 * d2 = dx2 * dx2 + dy2 * dy2)
    (hv3 : d3 * d3 = dx3 * dx3 + dy3 * dy3)
    (hfar : 150 ≤ d3)
    (hpos : 0 < d1) (hlt : d1 < d2) (hsub : d2 < 150) :
    mouseDisplacement dx3 dy3 d3 = (0, 0) ∧
    dispSq dx2 dy2 d2 < dispSq dx1 dy1 d1 := by
  constructor
  · unfold mouseDisplacement
    rw [if_neg (not_lt.mpr hfar)]
  · have h1 := dispSq_eq dx1 dy1 d1 hpos hv1 (by linarith)
    have h2 := dispSq_eq dx2 dy2 d2 (by linarith) hv2 hsub
    rw [h1, h2]
    have e1 : (0 : ℚ) < 150 - d2 := by linarith
    have e2 : 150 - d2 < 150 - d1 := by linarith
    have ha : (0 : ℚ) ≤ (150 - d2) / 150 := by positivity
    have hb : (150 - d2) / 150 < (150 - d1) / 150 := by gcongr
    have key := mul_self_lt_mul_self ha hb
    nlinarith [key]

open NeuralCanvas in
/-- Witness for C3 at concrete geometrically consistent triples:
(-5, 0, 5) and (-50, 0, 50) inside the radius, (-9999, 0, 9999) outside. -/
theorem C3_displacement_magnitude_witness :
    mouseDisplacement (-9999) 0 9999 = (0, 0) ∧
    dispSq (-50) 0 50 < dispSq (-5) 0 5 :=
  C3_displacement_magnitude (-5) 0 5 (-50) 0 50 (-9999) 0 9999
    (by simp) (by simp) (by simp) (by decide) (by decide) (by decide) (by decide)

open NeuralCanvas in
/-- C4 counterexample.  The claim states that the velocity sign on an axis
flips exactly once per boundary-crossing event and never twice for a single
crossing.  In the three-frame trace below on a 100 x 100 canvas the particle
starts in bounds at x = 99, is pushed past the right edge during frame 1 by
the pointer force (which runs after the bounce check), and stays beyond
x = 100 for frames 1, 2 and 3; yet vx flips at frame 2 (1 to -1) and again
at frame 3 (-1 to 1): two flips for one crossing.  The pointer distance
supplied at each frame is checked against dx*dx + dy*dy at the moved
position (first three conjuncts). -/
theorem C4_counterexample :
    ((100 : ℚ) * 100 = (0 - 100) * (0 - 100) + (50 - 50) * (50 - 50)) ∧
    ((100 : ℚ) * 100 = (5 / 3 - 305 / 3) * (5 / 3 - 305 / 3) + (50 - 50) * (50 - 50)) ∧
    ((300 : ℚ) * 300 = (-596 / 3 - 304 / 3) * (-596 / 3 - 304 / 3) + (50 - 50) * (50 - 50)) ∧
    drawStep 100 100 0 50 100 ⟨99, 50, 1, 0, 1⟩ = ⟨302 / 3, 50, 1, 0, 1⟩ ∧
    drawStep 100 100 (5 / 3) 50 100 ⟨302 / 3, 50, 1, 0, 1⟩ = ⟨307 / 3, 50, -1, 0, 1⟩ ∧
    drawStep 100 100 (-596 / 3) 50 300 ⟨307 / 3, 50, -1, 0, 1⟩ = ⟨304 / 3, 50, 1, 0, 1⟩ ∧
    (0 ≤ (99 : ℚ) ∧ (99 : ℚ) ≤ 100) ∧
    (302 : ℚ) / 3 > 100 ∧ (307 : ℚ) / 3 > 100 ∧ (304 : ℚ) / 3 > 100 := by
  norm_num [drawStep, moveStep, mouseStep, Particle.mk.injEq]

open NeuralCanvas in
/-- C4 amended.  When the pointer force does not act (supplied distances at
least the radius 150 on both frames), a particle that starts the frame
inside [0, w] on the x axis and whose velocity step carries it out of bounds
flips vx exactly once: the flip happens on the frame that detects the
crossing, the next frame returns the particle to its former in-bounds
coordinate, and no second flip occurs. -/
theorem C4_amended_single_flip (w h mx1 my1 mx2 my2 d1 d2 : ℚ) (p : Particle)
    (hd1 : 150 ≤ d1) (hd2 : 150 ≤ d2)
    (hx0 : 0 ≤ p.x) (hx1 : p.x ≤ w)
    (hout : p.x + p.vx < 0 ∨ p.x + p.vx > w) :
    (drawStep w h mx1 my1 d1 p).vx = -p.vx ∧
    (drawStep w h mx2 my2 d2 (drawStep w h mx1 my1 d1 p)).x = p.x ∧
    0 ≤ (drawStep w h mx2 my2 d2 (drawStep w h mx1 my1 d1 p)).x ∧
    (drawStep w h mx2 my2 d2 (drawStep w h mx1 my1 d1 p)).x ≤ w ∧
    (drawStep w h mx2 my2 d2 (drawStep w h mx1 my1 d1 p)).vx = -p.vx := by
  have hm1 : drawStep w h mx1 my1 d1 p = moveStep w h p := by
    unfold drawStep
    exact mouseStep_far _ _ _ _ (not_lt.mpr hd1)
  have hm2 : ∀ q : Particle, drawStep w h mx2 my2 d2 q = moveStep w h q := by
    intro q
    unfold drawStep
    exact mouseStep_far _ _ _ _ (not_lt.mpr hd2)
  rw [hm1, hm2]
  have e1 : (moveStep w h p).x = p.x + p.vx := moveStep_x w h p
  have e2 : (moveStep w h p).vx = -p.vx := by
    rw [moveStep_vx, if_pos hout]
  have e3 : (moveStep w h (moveStep w h p)).x = p.x := by
    rw [moveStep_x, e1, e2]; ring
  have e4 : (moveStep w h (moveStep w h p)).vx = -p.vx := by
    rw [moveStep_vx, e1, e2]
    rw [if_neg]
    push_neg
    constructor <;> [linarith; linarith]
  exact ⟨e2, e3, e3 ▸ hx0, e3 ▸ hx1, e4⟩

open NeuralCanvas in
/-- Witness for C4 amended: particle at x = 100 with vx = 1 crosses the
right edge of a 100 x 100 canvas while the pointer is far away. -/
theorem C4_amended_single_flip_witness :
    (drawStep 100 100 0 0 9999 ⟨100, 50, 1, 0, 1⟩).vx = -1 ∧
    (drawStep 100 100 0 0 9999 (drawStep 100 100 0 0 9999 ⟨100, 50, 1, 0, 1⟩)).x = 100 ∧
    0 ≤ (drawStep 100 100 0 0 9999 (drawStep 100 100 0 0 9999 ⟨100, 50, 1, 0, 1⟩)).x ∧
    (drawStep 100 100 0 0 9999 (drawStep 100 100 0 0 9999 ⟨100, 50, 1, 0, 1⟩)).x ≤ 100 ∧
    (drawStep 100 100 0 0 9999 (drawStep 100 100 0 0 9999 ⟨100, 50, 1, 0, 1⟩)).vx = -1 :=
  C4_amended_single_flip 100 100 0 0 0 0 9999 9999 ⟨100, 50, 1, 0, 1⟩
    (by decide) (by decide) (by decide) (by decide) (Or.inr (by simp))

open NeuralCanvas BackgroundSystem in
/-- C5.  The connection opacity computed at line 1509 is linear in the
distance of the pair, equal to 1 at distance 0 and 0 at the threshold 150
(linearity stated as: the opacity difference of any two distances is their
negated difference scaled by the threshold).  The alpha actually drawn is
opacity * 0.2, so at distance 0 it attains its configured maximum 0.2 over
all nonnegative distances; the analogous background-system alpha
0.15 * (1 - dist / 140) attains its maximum 0.15 at distance 0. -/
theorem C5_opacity_linear (d d1 d2 : ℚ) (hd : 0 ≤ d) :
    connectionOpacity 0 = 1 ∧
    connectionOpacity 150 = 0 ∧
    connectionOpacity d1 - connectionOpacity d2 = (d2 - d1) / 150 ∧
    connectionAlpha d ≤ connectionAlpha 0 ∧
    connectionAlpha 0 = 2 / 10 ∧
    drawAlpha d ≤ drawAlpha 0 ∧
    drawAlpha 0 = 15 / 100 := by
  unfold connectionAlpha connectionOpacity drawAlpha
  norm_num
  refine ⟨by ring, ?_, ?_⟩ <;> nlinarith [hd]

open NeuralCanvas BackgroundSystem in
/-- Witness for C5 at distance 30 with linearity probed at 10 and 20. -/
theorem C5_opacity_linear_witness :
    connectionOpacity 0 = 1 ∧
    connectionOpacity 150 = 0 ∧
    connectionOpacity 10 - connectionOpacity 20 = (20 - 10) / 150 ∧
    connectionAlpha 30 ≤ connectionAlpha 0 ∧
    connectionAlpha 0 = 2 / 10 ∧
    drawAlpha 30 ≤ drawAlpha 0 ∧
    drawAlpha 0 = 15 / 100 :=
  C5_opacity_linear 30 10 20 (by decide)

open NeuralCanvas in
/-- C6.  When the pointer holds the inactive sentinel position
(-9999, -9999) set by InputHandler.handleTouchEnd (script.js lines 389-394),
the mouse-interaction step leaves the particle unchanged, for every particle
that is not itself within 150 of the sentinel on both axes (in particular
for every position in or anywhere near the canvas, whose coordinates are
nonnegative).  The supplied distance is constrained to be the genuine
Euclidean distance to the sentinel. -/
theorem C6_sentinel_no_force (p : Particle) (dist : ℚ)
    (hp : -9849 ≤ p.x ∨ -9849 ≤ p.y)
    (hd : 0 ≤ dist)
    (hv : dist * dist =
      (-9999 - p.x) * (-9999 - p.x) + (-9999 - p.y) * (-9999 - p.y)) :
    mouseStep (-9999) (-9999) dist p = p := by
  apply mouseStep_far
  intro hlt
  have hsq : dist * dist < 22500 := by nlinarith
  rcases hp with hp | hp
  · have h1 : -9999 - p.x ≤ -150 := by linarith
    have h2 : (22500 : ℚ) ≤ (-9999 - p.x) * (-9999 - p.x) := by nlinarith
    have h3 : (0 : ℚ) ≤ (-9999 - p.y) * (-9999 - p.y) := mul_self_nonneg _
    linarith [hv ▸ hsq]
  · have h1 : -9999 - p.y ≤ -150 := by linarith
    have h2 : (22500 : ℚ) ≤ (-9999 - p.y) * (-9999 - p.y) := by nlinarith
    have h3 : (0 : ℚ) ≤ (-9999 - p.x) * (-9999 - p.x) := mul_self_nonneg _
    linarith [hv ▸ hsq]

open NeuralCanvas in
/-- Witness for C6: a particle at (0, -9999), whose distance to the sentinel
is exactly 9999, receives no displacement. -/
theorem C6_sentinel_no_force_witness :
    mouseStep (-9999) (-9999) 9999 ⟨0, -9999, 0, 0, 1⟩ = ⟨0, -9999, 0, 0, 1⟩ :=
  C6_sentinel_no_force ⟨0, -9999, 0, 0, 1⟩ 9999 (Or.inl (by decide)) (by decide)
    (by simp)

open NeuralCanvas in
/-- C7.  NeuralCanvas.resize recomputes the particle count from the new
width tier (more than 1000 gives 120, otherwise 60), rebuilds exactly that
many particles, and the result is completely independent of the previous
state: the old particle set is discarded wholesale and replaced by the batch
createParticles builds from fresh random samples. -/
theorem C7_resize_replaces (newW newH : ℚ) (rnd : ℕ → ℚ) (s t : NeuralCanvas.NCState) :
    (resize newW newH rnd s).particleCount = (if 1000 < newW then 120 else 60) ∧
    (resize newW newH rnd s).particles.length = (if 1000 < newW then 120 else 60) ∧
    resize newW newH rnd s = resize newW newH rnd t ∧
    (resize newW newH rnd s).particles =
      createParticles newW newH (if 1000 < newW then 120 else 60) rnd := by
  refine ⟨rfl, ?_, rfl, rfl⟩
  simp [resize, createParticles]

/-- C8.  When the expected canvas element is missing at startup, the
NeuralCanvas constructor returns an inert component without touching the
drawing context and without raising an error (Except.ok with no particles
and init never run, so no animation or listener calls ever happen), and a
CanvasController in the invalid state completes resize and clear without
error and without performing any drawing operation: the page degrades to
fewer visual effects instead of crashing. -/
theorem C8_missing_canvas_noop (w h pw ph : ℚ) (rnd : ℕ → ℚ)
    (c : CanvasController) (hc : c.isValid = false) :
    NeuralCanvas.make false w h rnd =
      Except.ok ⟨false, false, [], 0, 0⟩ ∧
    CanvasController.make false pw ph =
      Except.ok ⟨false, false, 0, 0, []⟩ ∧
    c.resizeM pw ph = Except.ok c ∧
    c.clear = Except.ok c := by
  refine ⟨rfl, rfl, ?_, ?_⟩ <;>
    simp [CanvasController.resizeM, CanvasController.clear, hc]

/-- Witness for C8: the invalid controller state produced by a failed canvas
lookup. -/
theorem C8_missing_canvas_noop_witness :
    NeuralCanvas.make false 800 600 (fun _ => 0) =
      Except.ok ⟨false, false, [], 0, 0⟩ ∧
    CanvasController.make false 800 600 =
      Except.ok ⟨false, false, 0, 0, []⟩ ∧
    CanvasController.resizeM ⟨false, false, 0, 0, []⟩ 800 600 =
      Except.ok ⟨false, false, 0, 0, []⟩ ∧
    CanvasController.clear ⟨false, false, 0, 0, []⟩ =
      Except.ok ⟨false, false, 0, 0, []⟩ :=
  C8_missing_canvas_noop 800 600 800 600 (fun _ => 0) ⟨false, false, 0, 0, []⟩ rfl

open NeuralCanvas in
/-- C9.  For a pointer at positive distance from the particle the
mouse-interaction arithmetic stays within finite IEEE values: the updated
coordinates are finite numbers.  But when the pointer coincides exactly with
the particle, both deltas are zero, the distance is exactly zero, and the
force-direction division 0 / 0 yields NaN, which propagates through the
force scaling and the position update: both updated coordinates are NaN. -/
theorem C9_nan_at_zero_distance (px py mx my d : ℚ) (hd : 0 < d)
    (hv : d * d = (mx - px) * (mx - px) + (my - py) * (my - py)) :
    (∃ qx qy : ℚ,
      mouseStepJS (JSNum.num mx) (JSNum.num my) (JSNum.num d)
        (JSNum.num px) (JSNum.num py) = (JSNum.num qx, JSNum.num qy)) ∧
    (∀ a b : ℚ,
      mouseStepJS (JSNum.num a) (JSNum.num b) (JSNum.num 0)
        (JSNum.num a) (JSNum.num b) = (JSNum.nan, JSNum.nan)) := by
  constructor
  · by_cases hlt : d < 150
    · refine ⟨px - (mx - px) / d * ((150 - d) / 150) * 2,
        py - (my - py) / d * ((150 - d) / 150) * 2, ?_⟩
      simp [mouseStepJS, JSNum.sub, JSNum.div, JSNum.mul, JSNum.lt, hlt, hd.ne']
    · refine ⟨px, py, ?_⟩
      simp [mouseStepJS, JSNum.lt, hlt]
  · intro a b
    simp [mouseStepJS, JSNum.sub, JSNum.div, JSNum.mul, JSNum.lt]

open NeuralCanvas in
/-- Witness for C9 at the geometrically consistent input
pointer (-5, 0), particle (0, 0), distance 5. -/
theorem C9_nan_at_zero_distance_witness :
    (∃ qx qy : ℚ,
      mouseStepJS (JSNum.num (-5)) (JSNum.num 0) (JSNum.num 5)
        (JSNum.num 0) (JSNum.num 0) = (JSNum.num qx, JSNum.num qy)) ∧
    (∀ a b : ℚ,
      mouseStepJS (JSNum.num a) (JSNum.num b) (JSNum.num 0)
        (JSNum.num a) (JSNum.num b) = (JSNum.nan, JSNum.nan)) :=
  C9_nan_at_zero_distance 0 0 (-5) 0 5 (by decide) (by simp)

/-- C10.  After every BackgroundParticle.update step the position lies in
[0, w] x [0, h] (for fresh position samples in [0, 1) and nonnegative
dimensions): a step that stays in bounds keeps the advanced position, and a
step that leaves the bounds does not reflect but replaces the whole particle
by reset, which draws a fresh uniform position inside the bounds together
with fresh random velocity, size and life values. -/
theorem C10_bg_update_bounds (p : BGParticle) (r1 r2 r3 r4 r5 r6 : ℚ)
    (h1 : 0 ≤ r1) (h2 : r1 < 1) (h3 : 0 ≤ r2) (h4 : r2 < 1)
    (hw : 0 ≤ p.w) (hh : 0 ≤ p.h) :
    (0 ≤ (BGParticle.update r1 r2 r3 r4 r5 r6 p).x ∧
      (BGParticle.update r1 r2 r3 r4 r5 r6 p).x ≤ p.w ∧
      0 ≤ (BGParticle.update r1 r2 r3 r4 r5 r6 p).y ∧
      (BGParticle.update r1 r2 r3 r4 r5 r6 p).y ≤ p.h) ∧
    ((p.x + p.vx < 0 ∨ p.x + p.vx > p.w ∨ p.y + p.vy < 0 ∨ p.y + p.vy > p.h) →
      BGParticle.update r1 r2 r3 r4 r5 r6 p =
        BGParticle.reset p.w p.h r1 r2 r3 r4 r5 r6) := by
  simp only [BGParticle.update]
  split_ifs with hif
  · refine ⟨?_, fun _ => rfl⟩
    simp only [BGParticle.reset]
    refine ⟨?_, ?_, ?_, ?_⟩ <;> nlinarith
  · push_neg at hif
    obtain ⟨k1, k2, k3, k4⟩ := hif
    refine ⟨⟨k1, k2, k3, k4⟩, ?_⟩
    intro hcon
    exfalso
    rcases hcon with hcon | hcon | hcon | hcon <;> linarith

/-- Witness for C10: an interior particle on a 100 x 100 canvas with all
random samples zero. -/
theorem C10_bg_update_bounds_witness :
    (0 ≤ (BGParticle.update 0 0 0 0 0 0 ⟨100, 100, 50, 50, 1, 1, 1, 0⟩).x ∧
      (BGParticle.update 0 0 0 0 0 0 ⟨100, 100, 50, 50, 1, 1, 1, 0⟩).x ≤ 100 ∧
      0 ≤ (BGParticle.update 0 0 0 0 0 0 ⟨100, 100, 50, 50, 1, 1, 1, 0⟩).y ∧
      (BGParticle.update 0 0 0 0 0 0 ⟨100, 100, 50, 50, 1, 1, 1, 0⟩).y ≤ 100) ∧
    ((50 : ℚ) + 1 < 0 ∨ (50 : ℚ) + 1 > 100 ∨ (50 : ℚ) + 1 < 0 ∨ (50 : ℚ) + 1 > 100 →
      BGParticle.update 0 0 0 0 0 0 ⟨100, 100, 50, 50, 1, 1, 1, 0⟩ =
        BGParticle.reset 100 100 0 0 0 0 0 0) :=
  C10_bg_update_bounds ⟨100, 100, 50, 50, 1, 1, 1, 0⟩ 0 0 0 0 0 0
    (by decide) (by decide) (by decide) (by decide) (by decide) (by decide)
